import Mathlib

/-!
# Tangram-es: ambient light, map tile, sprite label, sprite style, debug text style

A shallow embedding of the functions of

* `core/src/scene/ambientLight.cpp`
* `core/src/mapTile/mapTile.h`
* `core/src/tile/labels/spriteLabel.cpp`
* `core/src/style/spriteStyle.cpp`
* `core/src/style/debugTextStyle.cpp`

Conventions.

* C++ `float` / `double` values are elements of a scalar type `F`; the arithmetic
  the sources perform on them (`+`, `*`, decimal literals) is the `Scalars F`
  record, so no property of floating point rounding is assumed.
* Static class members (`s_classBlock`, `s_processedTile`) are explicit state that
  every function reading or writing them takes and returns.
* A pointer that the sources compare with or set to `nullptr` is an `Option`;
  dereferencing `none` makes the function return `none`.
* Functions whose bodies lie outside the files listed above (they belong to
  `Light`, `ShaderProgram`, `Labels`, `SpriteAtlas`, `Builders`, `TextStyle`,
  the platform layer) are parameters, grouped in `...Deps` records. Requests
  sent to the `Labels` singleton are additionally written to a request list,
  in call order, so that what a builder asked for can be stated.
-/

namespace Tangram

/-! ## Scalars and vectors -/

/-- The arithmetic the sources use on `float` values: addition,
multiplication and the value of a decimal literal. -/
structure Scalars (F : Type) where
  add : F → F → F
  mul : F → F → F
  lit : ℚ → F

/-- The `glm::vec2` type. -/
structure Vec2 (F : Type) where
  x : F
  y : F
deriving DecidableEq

/-- The `glm::vec3` type; `Point` is a typedef of it. -/
structure Vec3 (F : Type) where
  x : F
  y : F
  z : F
deriving DecidableEq

/-- The conversion `glm::vec2(v)` of a `vec3`: the first two components. -/
def Vec3.toVec2 {F : Type} (v : Vec3 F) : Vec2 F := ⟨v.x, v.y⟩

/-- The constructor `glm::vec2(s)`: both components are `s`. -/
def Vec2.splat {F : Type} (s : F) : Vec2 F := ⟨s, s⟩

/-- Componentwise `a + b` on `glm::vec2`. -/
def Vec2.add {F : Type} (sc : Scalars F) (a b : Vec2 F) : Vec2 F :=
  ⟨sc.add a.x b.x, sc.add a.y b.y⟩

/-- The product `v * s` of a `glm::vec2` and a scalar. -/
def Vec2.scale {F : Type} (sc : Scalars F) (v : Vec2 F) (s : F) : Vec2 F :=
  ⟨sc.mul v.x s, sc.mul v.y s⟩

/-- Exact rational arithmetic, the scalars used for concrete evaluation. -/
def ratScalars : Scalars ℚ := ⟨fun a b => a + b, fun a b => a * b, fun q => q⟩

/-! ## Ambient light (`core/src/scene/ambientLight.cpp`) -/

/-- The enumerator of `LightType` that `ambientLight.cpp` names. -/
inductive LightType where
  | ambient
deriving DecidableEq

/-- The enumerator of `PathType` that `ambientLight.cpp` names. -/
inductive PathType where
  | internal
deriving DecidableEq

/-- An `AmbientLight` object: the members of its base `Light` that
`ambientLight.cpp` reads or writes. -/
structure AmbientLight where
  m_name : String
  m_dynamic : Bool
  m_type : LightType
deriving DecidableEq

/-- The constructor `AmbientLight::AmbientLight(name, dynamic)`. -/
def AmbientLight.new (name : String) (dynamic : Bool) : AmbientLight :=
  { m_name := name, m_dynamic := dynamic, m_type := LightType.ambient }

/-- The static members of `AmbientLight`. -/
structure AmbientLightStatics where
  s_classBlock : String
  s_typeName : String
deriving DecidableEq

/-- The statics at program start: `s_classBlock` is default constructed,
`s_typeName` is `"AmbientLight"`. -/
def AmbientLightStatics.init : AmbientLightStatics :=
  { s_classBlock := "", s_typeName := "AmbientLight" }

/-- The object `LightUniforms(shader, name)`: it keeps the shader it was made
for and the uniform name. -/
structure LightUniforms (S : Type) where
  shader : S
  name : String

/-- The method `AmbientLight::injectOnProgram(shader)`. The base class methods
`injectSourceBlocks` and `getUniformName` are parameters. Returns the shader
after the call and the returned pointer. -/
def AmbientLight.injectOnProgram {S : Type}
    (injectSourceBlocks : AmbientLight → S → S)
    (getUniformName : AmbientLight → String)
    (self : AmbientLight) (shader : S) : S × Option (LightUniforms S) :=
  let shader1 := injectSourceBlocks self shader
  if !self.m_dynamic then (shader1, none)
  else (shader1, some ⟨shader1, getUniformName self⟩)

/-- The test `std::string::empty()`. -/
def strEmpty (s : String) : Bool := s.length == 0

/-- The method `AmbientLight::getClassBlock()`. The platform function
`stringFromFile(path, type)` is a parameter acting on a platform state `W`
(which holds the files); the result is the returned string, the statics and
the platform state after the call. -/
def AmbientLight.getClassBlock {W : Type}
    (stringFromFile : String → PathType → W → String × W)
    (_self : AmbientLight) (st : AmbientLightStatics) (w : W) :
    String × AmbientLightStatics × W :=
  if strEmpty st.s_classBlock then
    let r := stringFromFile "shaders/ambientLight.glsl" PathType.internal w
    let st1 := { st with s_classBlock := r.1 ++ "\n" }
    (st1.s_classBlock, st1, r.2)
  else (st.s_classBlock, st, w)

/-- A run of `getClassBlock` calls, one per list entry: the entry gives the
instance the call is made on and the platform state (so the file contents) at
the time of the call. Returns, per call, the string returned and the platform
state left, and the statics after the last call. -/
def AmbientLight.getClassBlockCalls {W : Type}
    (stringFromFile : String → PathType → W → String × W) :
    List (AmbientLight × W) → AmbientLightStatics →
      List (String × W) × AmbientLightStatics
  | [], st => ([], st)
  | (l, w) :: rest, st =>
    let r := AmbientLight.getClassBlock stringFromFile l st w
    let rs := AmbientLight.getClassBlockCalls stringFromFile rest r.2.1
    ((r.1, r.2.2) :: rs.1, rs.2)

/-- The method `AmbientLight::getInstanceDefinesBlock()`. -/
def AmbientLight.getInstanceDefinesBlock (_self : AmbientLight) : String := "\n"

/-- The method `AmbientLight::getInstanceAssignBlock()`; the base method
`Light::getInstanceAssignBlock` is a parameter. -/
def AmbientLight.getInstanceAssignBlock
    (baseAssignBlock : AmbientLight → String) (self : AmbientLight) : String :=
  let block := baseAssignBlock self
  if !self.m_dynamic then block ++ ")" else block

/-- The method `AmbientLight::getTypeName()`. -/
def AmbientLight.getTypeName (st : AmbientLightStatics) : String := st.s_typeName

/-! ## Map tile (`core/src/mapTile/mapTile.h`) -/

/-- The identifier of a tile: `x`, `y` and zoom level `z`, each a C++ `int`. -/
structure TileID where
  x : Int
  y : Int
  z : Int
deriving DecidableEq

/-- The members of the base class `Style` that the sources read. -/
structure Style where
  m_name : String
  m_drawMode : Nat
deriving DecidableEq

/-- The keys of a `std::unordered_map` held as a list of entries. -/
def umapKeys {V : Type} (m : List (String × V)) : List String := m.map Prod.fst

/-- The lookup `m.find(key)` of a `std::unordered_map`: the mapped value, or
`none` for `end()`. -/
def umapFind {V : Type} : List (String × V) → String → Option V
  | [], _ => none
  | (k, v) :: rest, key => if k = key then some v else umapFind rest key

/-- The assignment `m[key] = value` of a `std::unordered_map`: the mapped value
of an existing key is replaced, a new key gets a new entry. -/
def umapAssign {V : Type} : List (String × V) → String → V → List (String × V)
  | [], key, value => [(key, value)]
  | (k, v) :: rest, key, value =>
    if k = key then (k, value) :: rest else (k, v) :: umapAssign rest key value

/-- The class `MapTile`, with the members declared in `mapTile.h`; `D` stands
for `double`, `M` for an owned `VboMesh`. -/
structure MapTile (D M : Type) where
  m_id : TileID
  m_tileOrigin : Vec2 D
  m_modelMatrix : List (List D)
  m_geometry : List (String × M)

/-- The getter `MapTile::getID()`. -/
def MapTile.getID {D M : Type} (self : MapTile D M) : TileID := self.m_id

/-- The getter `MapTile::getOrigin()`. -/
def MapTile.getOrigin {D M : Type} (self : MapTile D M) : Vec2 D := self.m_tileOrigin

/-- Modelled from the spec: the body of `MapTile::addGeometry(style, mesh)`,
which `mapTile.h` only declares. The spec says it "inserts/overwrites mesh for
style" in the tile's "mapping {style name → owned mesh}": the mesh is assigned
to the style's name in `m_geometry`. -/
def MapTile.addGeometry {D M : Type} (self : MapTile D M) (style : Style) (mesh : M) :
    MapTile D M :=
  { self with m_geometry := umapAssign self.m_geometry style.m_name mesh }

/-! ## Labels (`core/src/tile/labels/spriteLabel.cpp`) -/

/-- Modelled from the spec: the enumeration `Label::Type`, declared outside the
files listed above; the spec lists "type (text/point/debug/sprite)", the files
name `point` and `debug`. -/
inductive LabelType where
  | text
  | point
  | debug
  | sprite
deriving DecidableEq

/-- Modelled from the spec: the struct `Label::Transform`, declared outside the
files listed above: the two positions its brace initialisers give, and the
"screen position, rotation" that `updateBBoxes` reads. -/
structure Transform (F : Type) where
  m_modelPosition1 : Vec2 F
  m_modelPosition2 : Vec2 F
  m_screenPosition : Vec2 F
  m_rotation : F
deriving DecidableEq

/-- The brace initialiser `{ p1, p2 }` of a `Label::Transform`: the members
not named are value initialised. -/
def Transform.init2 {F : Type} (sc : Scalars F) (p1 p2 : Vec2 F) : Transform F :=
  { m_modelPosition1 := p1, m_modelPosition2 := p2,
    m_screenPosition := Vec2.splat (sc.lit 0), m_rotation := sc.lit 0 }

/-- The four corners of an oriented box. -/
structure Quad (F : Type) where
  q0 : Vec2 F
  q1 : Vec2 F
  q2 : Vec2 F
  q3 : Vec2 F
deriving DecidableEq

/-- Modelled from the spec: the class `isect2d::OBB`, defined outside the files
listed above: "an oriented box derived from screen position + rotation +
size". It keeps the five constructor arguments and its four corners. -/
structure OBB (F : Type) where
  m_cx : F
  m_cy : F
  m_angle : F
  m_width : F
  m_height : F
  m_quad : Quad F
deriving DecidableEq

/-- Modelled from the spec: the class `isect2d::AABB`, an axis-aligned box
given by its least and greatest corner. -/
structure AABB (F : Type) where
  m_min : Vec2 F
  m_max : Vec2 F
deriving DecidableEq

/-- Modelled from the spec: the constructor `isect2d::OBB(cx, cy, angle, w, h)`.
The corner computation (the rotation by `angle`) is the parameter `corners`. -/
def OBB.build {F : Type} (corners : F → F → F → F → F → Quad F)
    (cx cy angle w h : F) : OBB F :=
  { m_cx := cx, m_cy := cy, m_angle := angle, m_width := w, m_height := h,
    m_quad := corners cx cy angle w h }

/-- Modelled from the spec: the method `isect2d::OBB::getExtent()`, "an
enclosing axis-aligned box derived from" the oriented box: the least
axis-aligned box that holds the four corners. -/
def OBB.getExtent {F : Type} [LinearOrder F] (o : OBB F) : AABB F :=
  let q := o.m_quad
  { m_min := ⟨min (min q.q0.x q.q1.x) (min q.q2.x q.q3.x),
               min (min q.q0.y q.q1.y) (min q.q2.y q.q3.y)⟩,
    m_max := ⟨max (max q.q0.x q.q1.x) (max q.q2.x q.q3.x),
               max (max q.q0.y q.q1.y) (max q.q2.y q.q3.y)⟩ }

/-- A point lies in an axis-aligned box. -/
def AABB.contains {F : Type} [LinearOrder F] (b : AABB F) (p : Vec2 F) : Prop :=
  b.m_min.x ≤ p.x ∧ p.x ≤ b.m_max.x ∧ b.m_min.y ≤ p.y ∧ p.y ≤ b.m_max.y

/-- An axis-aligned box encloses an oriented box: it holds its four corners. -/
def AABB.encloses {F : Type} [LinearOrder F] (b : AABB F) (o : OBB F) : Prop :=
  b.contains o.m_quad.q0 ∧ b.contains o.m_quad.q1 ∧
  b.contains o.m_quad.q2 ∧ b.contains o.m_quad.q3

instance {F : Type} [LinearOrder F] (b : AABB F) (p : Vec2 F) : Decidable (b.contains p) := by
  unfold AABB.contains; infer_instance

instance {F : Type} [LinearOrder F] (b : AABB F) (o : OBB F) : Decidable (b.encloses o) := by
  unfold AABB.encloses; infer_instance

/-- The members of `Label` that `spriteLabel.cpp` reads or writes. -/
structure Label (F : Type) where
  m_type : LabelType
  m_transform : Transform F
  m_dim : Vec2 F
  m_obb : OBB F
  m_aabb : AABB F
deriving DecidableEq

/-- The getter `Label::getTransform()`. -/
def Label.getTransform {F : Type} (self : Label F) : Transform F := self.m_transform

/-- The constructor `SpriteLabel::SpriteLabel(transform, size)`: the base
constructor is called with `Label::Type::point`, then `m_dim = size`. The boxes
the base constructor leaves are the parameters `obb0` and `aabb0`. -/
def SpriteLabel.new {F : Type} (obb0 : OBB F) (aabb0 : AABB F)
    (transform : Transform F) (size : Vec2 F) : Label F :=
  { m_type := LabelType.point, m_transform := transform, m_dim := size,
    m_obb := obb0, m_aabb := aabb0 }

/-- The method `SpriteLabel::pushTransform()`, whose body is empty. -/
def SpriteLabel.pushTransform {F : Type} (self : Label F) : Label F := self

/-- The method `SpriteLabel::updateBBoxes()`. -/
def SpriteLabel.updateBBoxes {F : Type} [LinearOrder F]
    (corners : F → F → F → F → F → Quad F) (self : Label F) : Label F :=
  let sp := self.m_transform.m_screenPosition
  let obb := OBB.build corners sp.x sp.y self.m_transform.m_rotation self.m_dim.x self.m_dim.y
  { self with m_obb := obb, m_aabb := obb.getExtent }

/-! ## Sprite style (`core/src/style/spriteStyle.cpp`) -/

/-- Modelled from the spec: the struct `SpriteNode`, declared outside the files
listed above: a "named rectangle (origin + size + UV)" of the atlas image. -/
structure SpriteNode (F : Type) where
  origin : Vec2 F
  size : Vec2 F
  uvBL : Vec2 F
  uvTR : Vec2 F
deriving DecidableEq

/-- The vertex struct `PosUVVertex`, with the five attributes of the vertex
layout in the order of its brace initialiser. -/
structure PosUVVertex (F : Type) where
  pos : Vec2 F
  screenPos : Vec2 F
  uv : Vec2 F
  alpha : F
  rotation : F
deriving DecidableEq

/-- The class `SpriteStyle`: its base `Style`, the shader program and the
sprite atlas pointer, which is null until `constructShaderProgram` has run. -/
structure SpriteStyle (A S : Type) extends Style where
  m_shaderProgram : S
  m_spriteAtlas : Option A

/-- The static members of `SpriteStyle`: the tile being processed. -/
structure SpriteStatics (T : Type) where
  s_processedTile : Option T

/-- The statics at program start: `s_processedTile` is `nullptr`. -/
def SpriteStatics.init {T : Type} : SpriteStatics T := { s_processedTile := none }

/-- One call `Labels::addSpriteLabel(tile, styleName, transform, size, offset)`
together with the pointer it returned (`none` for null). -/
structure SpriteLabelRequest (T F : Type) where
  tile : T
  styleName : String
  transform : Transform F
  size : Vec2 F
  offset : Vec2 F
  result : Option (Label F)

/-- The `Labels` singleton as the sprite style sees it: its state `L`, left
abstract, and the list of `addSpriteLabel` calls made so far. -/
structure SpriteLabels (L T F : Type) where
  state : L
  requests : List (SpriteLabelRequest T F)

/-- The functions that `spriteStyle.cpp` calls and does not define.
`buildQuadAtPoint` gets the builder's index list and returns the arguments of
the `addVertex` calls it makes, in order, and the index list it leaves. -/
structure SpriteDeps (L T F A S M : Type) where
  stringFromResource : String → String
  setSourceStrings : S → String → String → S
  newSpriteAtlas : String → A
  addSpriteNode : A → String → Vec2 F → Vec2 F → A
  getSpriteNode : A → String → SpriteNode F
  addSpriteLabel : L → T → String → Transform F → Vec2 F → Vec2 F → Option (Label F) × L
  buildQuadAtPoint : Vec2 F → Vec2 F → Vec2 F → Vec2 F → List Nat →
    List (Vec2 F × Vec2 F × Vec2 F) × List Nat
  addVertices : M → List (PosUVVertex F) → List Nat → M

/-- The method `SpriteStyle::constructShaderProgram()`. -/
def SpriteStyle.constructShaderProgram {L T F A S M : Type} (sc : Scalars F)
    (deps : SpriteDeps L T F A S M) (self : SpriteStyle A S) : SpriteStyle A S :=
  let fragShaderSrcStr := deps.stringFromResource "sprite.fs"
  let vertShaderSrcStr := deps.stringFromResource "sprite.vs"
  let program := deps.setSourceStrings self.m_shaderProgram fragShaderSrcStr vertShaderSrcStr
  let atlas0 := deps.newSpriteAtlas "poi_icons_32.png"
  let atlas1 := deps.addSpriteNode atlas0 "plane" ⟨sc.lit 0, sc.lit 0⟩ ⟨sc.lit 32, sc.lit 32⟩
  let atlas2 := deps.addSpriteNode atlas1 "tree" ⟨sc.lit 0, sc.lit 185⟩ ⟨sc.lit 32, sc.lit 32⟩
  let atlas3 := deps.addSpriteNode atlas2 "sunburst" ⟨sc.lit 0, sc.lit 629⟩ ⟨sc.lit 32, sc.lit 32⟩
  { self with m_shaderProgram := program, m_spriteAtlas := some atlas3 }

/-- The constant `M_PI_2` of `math.h`. -/
def M_PI_2 {F : Type} (sc : Scalars F) : F := sc.lit (157079632679489661923 / 100000000000000000000)

/-- The lambda given to the `SpriteBuilder` in `buildPoint`: the vertex it
pushes for an `addVertex(coord, screenPos, uv)` call. -/
def SpriteStyle.addVertex {F : Type} (sc : Scalars F) (a : Vec2 F × Vec2 F × Vec2 F) :
    PosUVVertex F :=
  { pos := a.1, screenPos := a.2.1, uv := a.2.2, alpha := sc.lit (1 / 2), rotation := M_PI_2 sc }

/-- The local state of `buildPoint` while its loop runs: the `Labels`
singleton, the `vertices` vector and the `indices` of the builder. -/
structure PointBuild (L T F : Type) where
  labels : SpriteLabels L T F
  vertices : List (PosUVVertex F)
  indices : List Nat

/-- The loop `for (auto prop : _props.stringProps)` of `SpriteStyle::buildPoint`
over the remaining properties. It returns `none` when `*s_processedTile` is
evaluated with `s_processedTile` null. -/
def SpriteStyle.buildPointLoop {L T F A S M : Type} (sc : Scalars F)
    (deps : SpriteDeps L T F A S M) (self : SpriteStyle A S) (point : Vec3 F)
    (planeSprite : SpriteNode F) (statics : SpriteStatics T) :
    List (String × String) → PointBuild L T F → Option (PointBuild L T F)
  | [], st => some st
  | prop :: rest, st =>
    if prop.1 = "name" then
      let scale := sc.lit (1 / 2)
      let offset : Vec2 F := ⟨sc.lit 0, sc.lit (-10)⟩
      match statics.s_processedTile with
      | none => none
      | some tile =>
        let transform := Transform.init2 sc point.toVec2 point.toVec2
        let size := Vec2.scale sc planeSprite.size scale
        let r := deps.addSpriteLabel st.labels.state tile self.m_name transform size offset
        let labels : SpriteLabels L T F :=
          { state := r.2,
            requests := st.labels.requests ++ [⟨tile, self.m_name, transform, size, offset, r.1⟩] }
        match r.1 with
        | some label =>
          let q := deps.buildQuadAtPoint
            (Vec2.add sc label.getTransform.m_screenPosition offset)
            (Vec2.scale sc planeSprite.size scale) planeSprite.uvBL planeSprite.uvTR st.indices
          SpriteStyle.buildPointLoop sc deps self point planeSprite statics rest
            { labels := labels,
              vertices := st.vertices ++ q.1.map (SpriteStyle.addVertex sc),
              indices := q.2 }
        | none =>
          SpriteStyle.buildPointLoop sc deps self point planeSprite statics rest
            { st with labels := labels }
    else SpriteStyle.buildPointLoop sc deps self point planeSprite statics rest st

/-- The method `SpriteStyle::buildPoint(point, styleParam, props, mesh)`;
`stringProps` is the list of the string properties in iteration order. It
returns the mesh and the `Labels` singleton after the call, or `none` when a
null pointer (`m_spriteAtlas`, `s_processedTile`) is dereferenced. -/
def SpriteStyle.buildPoint {L T F A S M : Type} (sc : Scalars F)
    (deps : SpriteDeps L T F A S M) (self : SpriteStyle A S) (point : Vec3 F)
    (stringProps : List (String × String)) (mesh : M)
    (statics : SpriteStatics T) (labels : SpriteLabels L T F) :
    Option (M × SpriteLabels L T F) :=
  match self.m_spriteAtlas with
  | none => none
  | some atlas =>
    let planeSprite := deps.getSpriteNode atlas "plane"
    match SpriteStyle.buildPointLoop sc deps self point planeSprite statics stringProps
        { labels := labels, vertices := [], indices := [] } with
    | none => none
    | some st => some (deps.addVertices mesh st.vertices st.indices, st.labels)

/-- Everything `buildLine` and `buildPolygon` could reach: the feature, the
properties, the mesh, the style and the static tile slot. -/
structure SpriteCallState (G A S M T : Type) where
  feature : G
  stringProps : List (String × String)
  mesh : M
  style : SpriteStyle A S
  statics : SpriteStatics T

/-- The method `SpriteStyle::buildLine`, whose body is empty. -/
def SpriteStyle.buildLine {G A S M T : Type} (st : SpriteCallState G A S M T) :
    SpriteCallState G A S M T := st

/-- The method `SpriteStyle::buildPolygon`, whose body is empty. -/
def SpriteStyle.buildPolygon {G A S M T : Type} (st : SpriteCallState G A S M T) :
    SpriteCallState G A S M T := st

/-- The method `SpriteStyle::onBeginBuildTile(tile)`. -/
def SpriteStyle.onBeginBuildTile {A S T : Type} (_self : SpriteStyle A S) (tile : T)
    (statics : SpriteStatics T) : SpriteStatics T :=
  { statics with s_processedTile := some tile }

/-- The method `SpriteStyle::onEndBuildTile(tile, mesh)`. -/
def SpriteStyle.onEndBuildTile {A S T M : Type} (_self : SpriteStyle A S) (_tile : T)
    (_mesh : M) (statics : SpriteStatics T) : SpriteStatics T :=
  { statics with s_processedTile := none }

/-- The quads built for a list of labels, in order, starting from given
`vertices` and `indices`: for each label one `buildQuadAtPoint` call at the
label's screen position plus `(0, -10)`, with half the sprite's size and the
sprite's `uvBL` / `uvTR`. -/
def SpriteStyle.quadsFor {L T F A S M : Type} (sc : Scalars F)
    (deps : SpriteDeps L T F A S M) (sprite : SpriteNode F) :
    List (Label F) → List (PosUVVertex F) × List Nat → List (PosUVVertex F) × List Nat
  | [], acc => acc
  | label :: rest, acc =>
    let q := deps.buildQuadAtPoint
      (Vec2.add sc label.m_transform.m_screenPosition ⟨sc.lit 0, sc.lit (-10)⟩)
      (Vec2.scale sc sprite.size (sc.lit (1 / 2))) sprite.uvBL sprite.uvTR acc.2
    SpriteStyle.quadsFor sc deps sprite rest (acc.1 ++ q.1.map (SpriteStyle.addVertex sc), q.2)

/-- The string properties whose key is `"name"`. -/
def nameProps (stringProps : List (String × String)) : List (String × String) :=
  stringProps.filter (fun prop => prop.1 = "name")

/-- The `addSpriteLabel` calls the specification expects from `buildPoint`: one
call per given property, each for the same tile, style name, transform, size and
offset, the `Labels` state passing from one call to the next. Returns the
calls with their results and the final `Labels` state. -/
def SpriteStyle.labelRequests {L T F A S M : Type} (deps : SpriteDeps L T F A S M)
    (tile : T) (styleName : String) (transform : Transform F) (size offset : Vec2 F) :
    List (String × String) → L → List (SpriteLabelRequest T F) × L
  | [], l => ([], l)
  | _ :: rest, l =>
    let r := deps.addSpriteLabel l tile styleName transform size offset
    let rs := SpriteStyle.labelRequests deps tile styleName transform size offset rest r.2
    (⟨tile, styleName, transform, size, offset, r.1⟩ :: rs.1, rs.2)

/-! ## Debug text style (`core/src/style/debugTextStyle.cpp`) -/

/-- The enumerator of `Tangram::DebugFlags` that `debugTextStyle.cpp` names. -/
inductive DebugFlags where
  | tile_infos
deriving DecidableEq

/-- The function `std::to_string(int)`: the decimal digits, after a minus sign
for a negative value. -/
def to_string (i : Int) : String :=
  match i with
  | Int.ofNat n => Nat.repr n
  | Int.negSucc n => "-" ++ Nat.repr (n + 1)

/-- The class `DebugTextStyle`: its base `Style` and the members of `TextStyle`
that `addData` reads. -/
structure DebugTextStyle (F : Type) extends Style where
  m_fontName : String
  m_fontSize : F
  m_color : Nat
  m_sdf : Bool
  m_sdfMultisampling : Bool
  m_pixelScale : F

/-- One call `Labels::addTextLabel(tile, buffer, styleName, transform, text,
type)`: the identifier of the tile and the arguments that describe the label. -/
structure TextLabelRequest (F : Type) where
  tile : TileID
  styleName : String
  transform : Transform F
  text : String
  type : LabelType
deriving DecidableEq

/-- The `Labels` singleton with its font context as the text styles see it:
its state `W`, left abstract, and the list of `addTextLabel` calls made so
far. -/
structure TextLabels (W F : Type) where
  state : W
  requests : List (TextLabelRequest F)

/-- The functions that `debugTextStyle.cpp` calls and does not define; `M` is
a mesh (a `TextBuffer`), `W` the state of the `Labels` singleton
and its font context. `addTextLabel` reads the tile; it may change the buffer
and the `Labels` state, and is taken to leave the tile as it is. -/
structure TextDeps (W F D M : Type) where
  newMesh : DebugTextStyle F → W → M × W
  onBeginBuildTile : DebugTextStyle F → M → W → M × W
  setFont : String → F → W → W
  setSignedDistanceField : F → W → W
  addTextLabel : MapTile D M → M → String → Transform F → String → LabelType → W → M × W
  onEndBuildTile : DebugTextStyle F → M → W → M × W
  compileVertexBuffer : M → M

/-- The text `addData` gives the debug label of a tile. -/
def DebugTextStyle.tileIDText (id : TileID) : String :=
  to_string id.x ++ "/" ++ to_string id.y ++ "/" ++ to_string id.z

/-- The method `DebugTextStyle::addData(data, tile)`; `getDebugFlag` is the
current value of the debug flags. Returns the tile and the `Labels` singleton
after the call. -/
def DebugTextStyle.addData {W F D M TD : Type} (sc : Scalars F) (deps : TextDeps W F D M)
    (getDebugFlag : DebugFlags → Bool) (self : DebugTextStyle F) (_data : TD)
    (tile : MapTile D M) (labels : TextLabels W F) : MapTile D M × TextLabels W F :=
  if getDebugFlag DebugFlags.tile_infos then
    let m0 := deps.newMesh self labels.state
    let m1 := deps.onBeginBuildTile self m0.1 m0.2
    let w2 := deps.setFont self.m_fontName (sc.mul self.m_fontSize self.m_pixelScale) m1.2
    let w3 := if self.m_sdf then deps.setSignedDistanceField (sc.lit (5 / 2)) w2 else w2
    let tileID := to_string tile.getID.x ++ "/" ++ to_string tile.getID.y ++ "/" ++
      to_string tile.getID.z
    let transform := Transform.init2 sc (Vec2.splat (sc.lit 0)) (Vec2.splat (sc.lit 0))
    let m4 := deps.addTextLabel tile m1.1 self.m_name transform tileID LabelType.debug w3
    let requests := labels.requests ++
      [⟨tile.getID, self.m_name, transform, tileID, LabelType.debug⟩]
    let m5 := deps.onEndBuildTile self m4.1 m4.2
    let mesh := deps.compileVertexBuffer m5.1
    (tile.addGeometry self.toStyle mesh, { state := m5.2, requests := requests })
  else (tile, labels)

/-- The buffer and the `Labels` state with which `addData` reaches its
`addTextLabel` call: the mesh from `newMesh()` after `onBeginBuildTile`, and
the state after `setFont(m_fontName, m_fontSize * m_pixelScale)` and, for a
signed distance field style, `setSignedDistanceField(2.5)`. -/
def DebugTextStyle.beforeLabel {W F D M : Type} (sc : Scalars F) (deps : TextDeps W F D M)
    (self : DebugTextStyle F) (w : W) : M × W :=
  ((deps.onBeginBuildTile self (deps.newMesh self w).1 (deps.newMesh self w).2).1,
   if self.m_sdf then
     deps.setSignedDistanceField (sc.lit (5 / 2))
       (deps.setFont self.m_fontName (sc.mul self.m_fontSize self.m_pixelScale)
         (deps.onBeginBuildTile self (deps.newMesh self w).1 (deps.newMesh self w).2).2)
   else
     deps.setFont self.m_fontName (sc.mul self.m_fontSize self.m_pixelScale)
       (deps.onBeginBuildTile self (deps.newMesh self w).1 (deps.newMesh self w).2).2)

/-- The `addSpriteLabel` calls the specification expects from `buildPoint` for a point,
when `tile` is the processed tile and `l` the `Labels` state at entry: one per
`"name"` property, with the point as both model positions, half the size of
the `"plane"` sprite and the offset `(0, -10)`. -/
def SpriteStyle.pointRequests {L T F A S M : Type} (sc : Scalars F)
    (deps : SpriteDeps L T F A S M) (self : SpriteStyle A S) (atlas : A) (point : Vec3 F)
    (tile : T) (stringProps : List (String × String)) (l : L) :
    List (SpriteLabelRequest T F) × L :=
  SpriteStyle.labelRequests deps tile self.m_name
    (Transform.init2 sc point.toVec2 point.toVec2)
    (Vec2.scale sc (deps.getSpriteNode atlas "plane").size (sc.lit (1 / 2)))
    ⟨sc.lit 0, sc.lit (-10)⟩ (nameProps stringProps) l

/-- The vertex and index lists the specification expects `buildPoint` to hand
to the mesh: the quads of the non-null labels among the results of the given calls,
built with the `"plane"` sprite, starting from empty lists. -/
def SpriteStyle.pointQuads {L T F A S M : Type} (sc : Scalars F)
    (deps : SpriteDeps L T F A S M) (atlas : A) (requests : List (SpriteLabelRequest T F)) :
    List (PosUVVertex F) × List Nat :=
  SpriteStyle.quadsFor sc deps (deps.getSpriteNode atlas "plane")
    (requests.filterMap (fun r => r.result)) ([], [])

/-- The number a list of decimal digit characters stands for. -/
def decodeNat (l : List Char) : Nat := l.foldl (fun a c => 10 * a + (c.toNat - 48)) 0

/-- A character is one of the ten decimal digits. -/
def isDigit (c : Char) : Bool := "0123456789".data.contains c

/-- A stand-in for `Light::injectSourceBlocks`: the shader is the list of its
source blocks and gains one block named after the light. -/
def demoInjectSourceBlocks : AmbientLight → List String → List String :=
  fun light shader => shader ++ ["block " ++ light.m_name]

/-- A stand-in for `Light::getUniformName`. -/
def demoGetUniformName : AmbientLight → String :=
  fun light => "u_" ++ light.m_name

/-- A stand-in for `Light::getInstanceAssignBlock`. -/
def demoBaseAssignBlock : AmbientLight → String :=
  fun light => light.m_name ++ " = AmbientLight(vec4(1.0)"

/-- A stand-in for the platform: the platform state is the content of the one
file, which a read returns and leaves. -/
def demoStringFromFile : String → PathType → String → String × String :=
  fun _ _ content => (content, content)

/-- A stand-in for the corner computation of an oriented box: the rotation is
ignored and `w`, `h` are taken as half extents. -/
def demoCorners : Int → Int → Int → Int → Int → Quad Int :=
  fun cx cy _ w h => ⟨⟨cx - w, cy - h⟩, ⟨cx + w, cy - h⟩, ⟨cx + w, cy + h⟩, ⟨cx - w, cy + h⟩⟩

/-- A sprite label at screen position `(10, 20)` with dimension `(4, 2)`, as
the constructor leaves it. -/
def demoLabel : Label Int :=
  SpriteLabel.new ⟨0, 0, 0, 0, 0, ⟨⟨0, 0⟩, ⟨0, 0⟩, ⟨0, 0⟩, ⟨0, 0⟩⟩⟩ ⟨⟨0, 0⟩, ⟨0, 0⟩⟩
    ⟨⟨1, 1⟩, ⟨1, 1⟩, ⟨10, 20⟩, 0⟩ ⟨4, 2⟩

/-! ## A tile build pass of the sprite style -/

/-- A small stand-in for the collaborators of the sprite style, used to run
the functions above on concrete inputs: the atlas is a list of named nodes,
the `Labels` state counts the requests and grants only the first one, a quad
is two corner vertices and two indices, a mesh is its vertex and index
lists. -/
def demoSpriteDeps : SpriteDeps Nat Nat ℚ (List (String × SpriteNode ℚ)) (String × String)
    (List (PosUVVertex ℚ) × List Nat) where
  stringFromResource := fun name => name
  setSourceStrings := fun _ frag vert => (frag, vert)
  newSpriteAtlas := fun _ => []
  addSpriteNode := fun atlas name origin size =>
    atlas ++ [(name, ⟨origin, size, origin, ⟨origin.x + size.x, origin.y + size.y⟩⟩)]
  getSpriteNode := fun atlas name =>
    ((atlas.find? (fun e => e.1 = name)).map Prod.snd).getD ⟨⟨0, 0⟩, ⟨0, 0⟩, ⟨0, 0⟩, ⟨0, 0⟩⟩
  addSpriteLabel := fun l _ _ transform size _ =>
    (if l < 1 then
        some (SpriteLabel.new ⟨0, 0, 0, 0, 0, ⟨⟨0, 0⟩, ⟨0, 0⟩, ⟨0, 0⟩, ⟨0, 0⟩⟩⟩ ⟨⟨0, 0⟩, ⟨0, 0⟩⟩
          { transform with m_screenPosition := transform.m_modelPosition1 } size)
      else none, l + 1)
  buildQuadAtPoint := fun pos size uvBL uvTR indices =>
    ([(⟨-size.x, -size.y⟩, pos, uvBL), (⟨size.x, size.y⟩, pos, uvTR)],
     indices ++ [indices.length, indices.length + 1])
  addVertices := fun mesh vertices indices => (mesh.1 ++ vertices, mesh.2 ++ indices)

/-- A sprite style named `"sprite"` after `constructShaderProgram`. -/
def demoSpriteStyle : SpriteStyle (List (String × SpriteNode ℚ)) (String × String) :=
  SpriteStyle.constructShaderProgram ratScalars demoSpriteDeps
    { m_name := "sprite", m_drawMode := 4, m_shaderProgram := ("", ""), m_spriteAtlas := none }

/-- The atlas `constructShaderProgram` builds in the concrete instance. -/
def demoAtlas : List (String × SpriteNode ℚ) :=
  [("plane", ⟨⟨0, 0⟩, ⟨32, 32⟩, ⟨0, 0⟩, ⟨32, 32⟩⟩),
   ("tree", ⟨⟨0, 185⟩, ⟨32, 32⟩, ⟨0, 185⟩, ⟨32, 217⟩⟩),
   ("sunburst", ⟨⟨0, 629⟩, ⟨32, 32⟩, ⟨0, 629⟩, ⟨32, 661⟩⟩)]

/-- A small stand-in for the collaborators of the debug text style: the
`Labels` state and a mesh are the lists of the operations applied to them. -/
def demoTextDeps : TextDeps (List String) ℚ Int (List String) where
  newMesh := fun _ w => ([], w ++ ["newMesh"])
  onBeginBuildTile := fun _ m w => (m ++ ["begin"], w)
  setFont := fun name _ w => w ++ ["setFont " ++ name]
  setSignedDistanceField := fun _ w => w ++ ["setSignedDistanceField"]
  addTextLabel := fun _ m _ _ text type w =>
    (m ++ [text],
     w ++ ["addTextLabel " ++ text ++ (if type = LabelType.debug then " debug" else " other")])
  onEndBuildTile := fun _ m w => (m ++ ["end"], w)
  compileVertexBuffer := fun m => m ++ ["compiled"]

/-- A debug text style named `"debug"`. -/
def demoDebugStyle : DebugTextStyle ℚ :=
  { m_name := "debug", m_drawMode := 4, m_fontName := "FiraSans", m_fontSize := 30,
    m_color := 0, m_sdf := true, m_sdfMultisampling := false, m_pixelScale := 2 }

/-- A tile with identifier `(19293, 24641, 16)` that holds a mesh of another style. -/
def demoTile : MapTile Int (List String) :=
  { m_id := ⟨19293, 24641, 16⟩, m_tileOrigin := ⟨0, 0⟩, m_modelMatrix := [],
    m_geometry := [("polygon", ["p"])] }

/-! ## Theorems: ambient light -/

/-- C1. `injectOnProgram` injects the source blocks into the shader whatever the
dynamic flag is; the pointer it returns is non-null exactly when the light is
dynamic, and is then the `LightUniforms` made for the shader and the light's
uniform name; for a static light it is null. -/
theorem AmbientLight.injectOnProgram_spec {S : Type}
    (injectSourceBlocks : AmbientLight → S → S) (getUniformName : AmbientLight → String)
    (self : AmbientLight) (shader : S) :
    (AmbientLight.injectOnProgram injectSourceBlocks getUniformName self shader).1
        = injectSourceBlocks self shader ∧
    ((AmbientLight.injectOnProgram injectSourceBlocks getUniformName self shader).2.isSome
        = self.m_dynamic) ∧
    (AmbientLight.injectOnProgram injectSourceBlocks getUniformName self shader).2
        = (if self.m_dynamic then
            some ⟨injectSourceBlocks self shader, getUniformName self⟩
           else none) := by
  cases h : self.m_dynamic <;> simp [AmbientLight.injectOnProgram, h]

/-- C1, at a dynamic and at a static light: both get their block injected, only
the dynamic one gets a handle. -/
theorem AmbientLight.injectOnProgram_spec_witness :
    ((AmbientLight.injectOnProgram demoInjectSourceBlocks demoGetUniformName
        (AmbientLight.new "sun" true) ["main"]).1 = ["main", "block sun"] ∧
      ((AmbientLight.injectOnProgram demoInjectSourceBlocks demoGetUniformName
        (AmbientLight.new "sun" true) ["main"]).2.isSome = true) ∧
      (AmbientLight.injectOnProgram demoInjectSourceBlocks demoGetUniformName
        (AmbientLight.new "sun" true) ["main"]).2 = some ⟨["main", "block sun"], "u_sun"⟩) ∧
    ((AmbientLight.injectOnProgram demoInjectSourceBlocks demoGetUniformName
        (AmbientLight.new "sky" false) ["main"]).1 = ["main", "block sky"] ∧
      ((AmbientLight.injectOnProgram demoInjectSourceBlocks demoGetUniformName
        (AmbientLight.new "sky" false) ["main"]).2.isSome = false) ∧
      (AmbientLight.injectOnProgram demoInjectSourceBlocks demoGetUniformName
        (AmbientLight.new "sky" false) ["main"]).2 = none) :=
  ⟨AmbientLight.injectOnProgram_spec demoInjectSourceBlocks demoGetUniformName
      (AmbientLight.new "sun" true) ["main"],
   AmbientLight.injectOnProgram_spec demoInjectSourceBlocks demoGetUniformName
      (AmbientLight.new "sky" false) ["main"]⟩

theorem strEmpty_append_newline (c : String) : strEmpty (c ++ "\n") = false := by
  have h : (c ++ "\n").length = c.length + 1 := by
    rw [String.length_append]; rfl
  simp [strEmpty, h]

theorem AmbientLight.getClassBlock_cached {W : Type}
    (stringFromFile : String → PathType → W → String × W)
    (self : AmbientLight) (st : AmbientLightStatics) (w : W)
    (h : strEmpty st.s_classBlock = false) :
    AmbientLight.getClassBlock stringFromFile self st w = (st.s_classBlock, st, w) := by
  simp [AmbientLight.getClassBlock, h]

theorem AmbientLight.getClassBlockCalls_cached {W : Type}
    (stringFromFile : String → PathType → W → String × W)
    (st : AmbientLightStatics) (h : strEmpty st.s_classBlock = false)
    (later : List (AmbientLight × W)) :
    AmbientLight.getClassBlockCalls stringFromFile later st
      = (later.map (fun lw => (st.s_classBlock, lw.2)), st) := by
  induction later with
  | nil => rfl
  | cons lw rest ih =>
    obtain ⟨l, w⟩ := lw
    simp [AmbientLight.getClassBlockCalls,
      AmbientLight.getClassBlock_cached stringFromFile l st w h, ih]

/-- C2. Starting from the empty class-wide cache, the first `getClassBlock` call
reads the file once, returns its content followed by a newline and stores that
string; every later call, on any instance and whatever the platform then
holds, returns the stored string, leaves the cache as it is and does not touch
the platform. -/
theorem AmbientLight.getClassBlock_memoised {W : Type}
    (stringFromFile : String → PathType → W → String × W)
    (first : AmbientLight) (w : W) (later : List (AmbientLight × W)) :
    AmbientLight.getClassBlock stringFromFile first AmbientLightStatics.init w
      = ((stringFromFile "shaders/ambientLight.glsl" PathType.internal w).1 ++ "\n",
         { AmbientLightStatics.init with
           s_classBlock :=
             (stringFromFile "shaders/ambientLight.glsl" PathType.internal w).1 ++ "\n" },
         (stringFromFile "shaders/ambientLight.glsl" PathType.internal w).2) ∧
    AmbientLight.getClassBlockCalls stringFromFile later
        (AmbientLight.getClassBlock stringFromFile first AmbientLightStatics.init w).2.1
      = (later.map (fun lw =>
          ((stringFromFile "shaders/ambientLight.glsl" PathType.internal w).1 ++ "\n", lw.2)),
         (AmbientLight.getClassBlock stringFromFile first AmbientLightStatics.init w).2.1) := by
  have h1 : AmbientLight.getClassBlock stringFromFile first AmbientLightStatics.init w
      = ((stringFromFile "shaders/ambientLight.glsl" PathType.internal w).1 ++ "\n",
         { AmbientLightStatics.init with
           s_classBlock :=
             (stringFromFile "shaders/ambientLight.glsl" PathType.internal w).1 ++ "\n" },
         (stringFromFile "shaders/ambientLight.glsl" PathType.internal w).2) := by
    have h0 : strEmpty AmbientLightStatics.init.s_classBlock = true := by decide
    simp [AmbientLight.getClassBlock, h0]
  refine ⟨h1, ?_⟩
  rw [h1]
  exact AmbientLight.getClassBlockCalls_cached stringFromFile _
    (strEmpty_append_newline _) later

/-- C2, at a concrete run: the file is empty at the first call, which returns
and stores `"\n"`; two later calls, on other instances and after the file has
changed, return `"\n"` and leave the platform as it is. -/
theorem AmbientLight.getClassBlock_memoised_witness :
    AmbientLight.getClassBlock demoStringFromFile (AmbientLight.new "a" true)
        AmbientLightStatics.init ""
      = ("\n", { s_classBlock := "\n", s_typeName := "AmbientLight" }, "") ∧
    AmbientLight.getClassBlockCalls demoStringFromFile
        [(AmbientLight.new "b" false, "void main() {}"), (AmbientLight.new "c" true, "")]
        { s_classBlock := "\n", s_typeName := "AmbientLight" }
      = ([("\n", "void main() {}"), ("\n", "")],
         { s_classBlock := "\n", s_typeName := "AmbientLight" }) :=
  AmbientLight.getClassBlock_memoised demoStringFromFile (AmbientLight.new "a" true) ""
    [(AmbientLight.new "b" false, "void main() {}"), (AmbientLight.new "c" true, "")]

/-- C10. `getInstanceAssignBlock` returns the base `Light` text for a dynamic
light and the base text followed by one `")"` for a static light;
`getInstanceDefinesBlock` returns `"\n"` in both cases. -/
theorem AmbientLight.instanceBlocks_spec (baseAssignBlock : AmbientLight → String)
    (self : AmbientLight) :
    AmbientLight.getInstanceAssignBlock baseAssignBlock self
      = (if self.m_dynamic then baseAssignBlock self else baseAssignBlock self ++ ")") ∧
    AmbientLight.getInstanceDefinesBlock self = "\n" := by
  cases h : self.m_dynamic <;>
    simp [AmbientLight.getInstanceAssignBlock, AmbientLight.getInstanceDefinesBlock, h]

/-- C10, at a dynamic and at a static light. -/
theorem AmbientLight.instanceBlocks_spec_witness :
    (AmbientLight.getInstanceAssignBlock demoBaseAssignBlock (AmbientLight.new "sun" true)
        = "sun = AmbientLight(vec4(1.0)" ∧
      AmbientLight.getInstanceDefinesBlock (AmbientLight.new "sun" true) = "\n") ∧
    (AmbientLight.getInstanceAssignBlock demoBaseAssignBlock (AmbientLight.new "sky" false)
        = "sky = AmbientLight(vec4(1.0))" ∧
      AmbientLight.getInstanceDefinesBlock (AmbientLight.new "sky" false) = "\n") :=
  ⟨AmbientLight.instanceBlocks_spec demoBaseAssignBlock (AmbientLight.new "sun" true),
   AmbientLight.instanceBlocks_spec demoBaseAssignBlock (AmbientLight.new "sky" false)⟩

/-! ## Theorems: map tile -/

theorem umapFind_assign_same {V : Type} (m : List (String × V)) (key : String) (value : V) :
    umapFind (umapAssign m key value) key = some value := by
  induction m with
  | nil => simp [umapAssign, umapFind]
  | cons e rest ih =>
    obtain ⟨k, v⟩ := e
    by_cases hk : k = key
    · simp [umapAssign, umapFind, hk]
    · simp [umapAssign, umapFind, hk, ih]

theorem umapFind_assign_other {V : Type} (m : List (String × V)) (key other : String)
    (value : V) (h : other ≠ key) :
    umapFind (umapAssign m key value) other = umapFind m other := by
  have h2 : ¬ key = other := fun e => h e.symm
  induction m with
  | nil => simp [umapAssign, umapFind, h2]
  | cons e rest ih =>
    obtain ⟨k, v⟩ := e
    by_cases hk : k = key
    · subst hk
      simp [umapAssign, umapFind, h2]
    · by_cases hk2 : k = other
      · subst hk2
        simp [umapAssign, umapFind, hk]
      · simp [umapAssign, umapFind, hk, hk2, ih]

theorem umapKeys_assign_mem {V : Type} (m : List (String × V)) (key : String) (value : V)
    (h : key ∈ umapKeys m) : umapKeys (umapAssign m key value) = umapKeys m := by
  induction m with
  | nil => simp [umapKeys] at h
  | cons e rest ih =>
    obtain ⟨k, v⟩ := e
    by_cases hk : k = key
    · simp [umapAssign, umapKeys, hk]
    · have h2 : key ∈ umapKeys rest := by
        simp only [umapKeys, List.map_cons, List.mem_cons] at h
        rcases h with h | h
        · exact absurd h.symm hk
        · exact h
      have ih2 := ih h2
      simp only [umapKeys] at ih2
      simp [umapAssign, umapKeys, hk, ih2]

theorem umapKeys_assign_not_mem {V : Type} (m : List (String × V)) (key : String) (value : V)
    (h : key ∉ umapKeys m) : umapKeys (umapAssign m key value) = umapKeys m ++ [key] := by
  induction m with
  | nil => simp [umapAssign, umapKeys]
  | cons e rest ih =>
    obtain ⟨k, v⟩ := e
    simp only [umapKeys, List.map_cons, List.mem_cons, not_or] at h
    have hk : ¬ k = key := fun e => h.1 e.symm
    have ih2 := ih (by simpa [umapKeys] using h.2)
    simp only [umapKeys] at ih2
    simp [umapAssign, umapKeys, hk, ih2]

theorem umapKeys_assign_nodup {V : Type} (m : List (String × V)) (key : String) (value : V)
    (h : (umapKeys m).Nodup) : (umapKeys (umapAssign m key value)).Nodup := by
  by_cases hm : key ∈ umapKeys m
  · rw [umapKeys_assign_mem m key value hm]; exact h
  · rw [umapKeys_assign_not_mem m key value hm]
    rw [List.nodup_append]
    refine ⟨h, List.nodup_singleton key, ?_⟩
    intro a ha hb
    simp only [List.mem_singleton] at hb
    exact hm (hb ▸ ha)

theorem umapAssign_filter_key {V : Type} (m : List (String × V)) (key : String) (value : V)
    (h : (umapKeys m).Nodup) :
    (umapAssign m key value).filter (fun e => e.1 = key) = [(key, value)] := by
  induction m with
  | nil => simp [umapAssign]
  | cons e rest ih =>
    obtain ⟨k, v⟩ := e
    simp only [umapKeys, List.map_cons, List.nodup_cons] at h
    by_cases hk : k = key
    · subst hk
      have hrest : rest.filter (fun e => e.1 = k) = [] := by
        rw [List.filter_eq_nil_iff]
        intro e he hek
        have : e.1 = k := by simpa using hek
        exact h.1 (this ▸ List.mem_map_of_mem Prod.fst he)
      simp [umapAssign, hrest]
    · have ih2 := ih (by simpa [umapKeys] using h.2)
      simp [umapAssign, hk, ih2]

/-- C3 (addGeometry is modelled from the spec). After `addGeometry(style, mesh)`
on a tile whose mapping has one entry per key, the mapping holds `mesh` under
the style's name, and this is its only entry for that name; the lookup of every
other name is unchanged; the mapping still has one entry per key, so at most
one mesh per style; the identity, origin and model matrix are unchanged. -/
theorem MapTile.addGeometry_spec {D M : Type} (tile : MapTile D M) (style : Style) (mesh : M)
    (h : (umapKeys tile.m_geometry).Nodup) :
    umapFind (tile.addGeometry style mesh).m_geometry style.m_name = some mesh ∧
    (tile.addGeometry style mesh).m_geometry.filter (fun e => e.1 = style.m_name)
      = [(style.m_name, mesh)] ∧
    (∀ other : String, other ≠ style.m_name →
      umapFind (tile.addGeometry style mesh).m_geometry other
        = umapFind tile.m_geometry other) ∧
    (umapKeys (tile.addGeometry style mesh).m_geometry).Nodup ∧
    (∀ key : String, (umapKeys (tile.addGeometry style mesh).m_geometry).count key ≤ 1) ∧
    (tile.addGeometry style mesh).m_id = tile.m_id ∧
    (tile.addGeometry style mesh).m_tileOrigin = tile.m_tileOrigin ∧
    (tile.addGeometry style mesh).m_modelMatrix = tile.m_modelMatrix := by
  have hn := umapKeys_assign_nodup tile.m_geometry style.m_name mesh h
  refine ⟨umapFind_assign_same _ _ _, umapAssign_filter_key _ _ _ h, ?_, hn, ?_, rfl, rfl, rfl⟩
  · intro other ho
    exact umapFind_assign_other _ _ _ _ ho
  · intro key
    exact List.nodup_iff_count_le_one.mp hn key

/-- C3, at a concrete tile: the mesh stored for `"sprite"` is replaced, the one
stored for `"text"` stays. -/
theorem MapTile.addGeometry_spec_witness :
    (umapKeys ([("text", 7), ("sprite", 8)] : List (String × Nat))).Nodup ∧
    (MapTile.addGeometry (⟨⟨1, 2, 3⟩, ⟨0, 0⟩, [], [("text", 7), ("sprite", 8)]⟩ : MapTile Int Nat)
      ⟨"sprite", 4⟩ 9).m_geometry = [("text", 7), ("sprite", 9)] ∧
    umapFind (MapTile.addGeometry
      (⟨⟨1, 2, 3⟩, ⟨0, 0⟩, [], [("text", 7), ("sprite", 8)]⟩ : MapTile Int Nat)
      ⟨"sprite", 4⟩ 9).m_geometry "sprite" = some 9 :=
  ⟨by decide, by decide,
   (MapTile.addGeometry_spec
      (⟨⟨1, 2, 3⟩, ⟨0, 0⟩, [], [("text", 7), ("sprite", 8)]⟩ : MapTile Int Nat)
      ⟨"sprite", 4⟩ 9 (by decide)).1⟩

/-! ## Theorems: sprite label -/

/-- C6 (the boxes of isect2d are modelled from the spec). After `updateBBoxes`
the oriented box is the one built from the current screen position, the current
rotation and the label's dimension; the axis-aligned box is the extent of that
oriented box and encloses it; type, transform and dimension are unchanged; a
second `updateBBoxes` changes nothing. -/
theorem SpriteLabel.updateBBoxes_spec {F : Type} [LinearOrder F]
    (corners : F → F → F → F → F → Quad F) (self : Label F) :
    (SpriteLabel.updateBBoxes corners self).m_obb
      = OBB.build corners self.m_transform.m_screenPosition.x
          self.m_transform.m_screenPosition.y self.m_transform.m_rotation
          self.m_dim.x self.m_dim.y ∧
    (SpriteLabel.updateBBoxes corners self).m_aabb
      = (SpriteLabel.updateBBoxes corners self).m_obb.getExtent ∧
    (SpriteLabel.updateBBoxes corners self).m_aabb.encloses
      (SpriteLabel.updateBBoxes corners self).m_obb ∧
    (SpriteLabel.updateBBoxes corners self).m_transform = self.m_transform ∧
    (SpriteLabel.updateBBoxes corners self).m_dim = self.m_dim ∧
    (SpriteLabel.updateBBoxes corners self).m_type = self.m_type ∧
    SpriteLabel.updateBBoxes corners (SpriteLabel.updateBBoxes corners self)
      = SpriteLabel.updateBBoxes corners self := by
  refine ⟨rfl, rfl, ?_, rfl, rfl, rfl, rfl⟩
  simp [SpriteLabel.updateBBoxes, OBB.getExtent, OBB.build, AABB.encloses, AABB.contains]

/-- C6, at a concrete label at `(10, 20)` with dimension `(4, 2)`: the boxes
after `updateBBoxes`. -/
theorem SpriteLabel.updateBBoxes_spec_witness :
    (SpriteLabel.updateBBoxes demoCorners demoLabel).m_obb
      = ⟨10, 20, 0, 4, 2, ⟨⟨6, 18⟩, ⟨14, 18⟩, ⟨14, 22⟩, ⟨6, 22⟩⟩⟩ ∧
    (SpriteLabel.updateBBoxes demoCorners demoLabel).m_aabb = ⟨⟨6, 18⟩, ⟨14, 22⟩⟩ ∧
    (SpriteLabel.updateBBoxes demoCorners demoLabel).m_aabb.encloses
      (SpriteLabel.updateBBoxes demoCorners demoLabel).m_obb :=
  ⟨by decide, by decide, (SpriteLabel.updateBBoxes_spec demoCorners demoLabel).2.2.1⟩

/-! ## Theorems: sprite style -/

/-- C4. `buildLine` and `buildPolygon` change nothing: the feature, the
properties, the mesh, the style and the static processed-tile slot are the
same after the call as before. -/
theorem SpriteStyle.buildLine_buildPolygon_noop {G A S M T : Type}
    (st : SpriteCallState G A S M T) :
    SpriteStyle.buildLine st = st ∧ SpriteStyle.buildPolygon st = st ∧
    (SpriteStyle.buildLine st).mesh = st.mesh ∧
    (SpriteStyle.buildLine st).stringProps = st.stringProps ∧
    (SpriteStyle.buildLine st).statics.s_processedTile = st.statics.s_processedTile ∧
    (SpriteStyle.buildPolygon st).mesh = st.mesh ∧
    (SpriteStyle.buildPolygon st).stringProps = st.stringProps ∧
    (SpriteStyle.buildPolygon st).statics.s_processedTile = st.statics.s_processedTile :=
  ⟨rfl, rfl, rfl, rfl, rfl, rfl, rfl, rfl⟩

theorem SpriteStyle.labelRequests_length {L T F A S M : Type} (deps : SpriteDeps L T F A S M)
    (tile : T) (styleName : String) (transform : Transform F) (size offset : Vec2 F) :
    ∀ (props : List (String × String)) (l : L),
      (SpriteStyle.labelRequests deps tile styleName transform size offset props l).1.length
        = props.length := by
  intro props
  induction props with
  | nil => intro l; rfl
  | cons p rest ih => intro l; simp [SpriteStyle.labelRequests, ih]

theorem SpriteStyle.quadsFor_nil_of_all_null {T F : Type}
    (requests : List (SpriteLabelRequest T F)) (h : ∀ r ∈ requests, r.result = none) :
    requests.filterMap (fun r => r.result) = [] := by
  induction requests with
  | nil => rfl
  | cons r rest ih =>
    have h1 : r.result = none := h r (List.mem_cons_self _ _)
    have h2 := ih (fun x hx => h x (List.mem_cons_of_mem _ hx))
    simp [List.filterMap_cons, h1, h2]

theorem SpriteStyle.buildPointLoop_eq {L T F A S M : Type} (sc : Scalars F)
    (deps : SpriteDeps L T F A S M) (self : SpriteStyle A S) (point : Vec3 F)
    (sprite : SpriteNode F) (statics : SpriteStatics T) (tile : T)
    (h : statics.s_processedTile = some tile) :
    ∀ (props : List (String × String)) (st : PointBuild L T F),
      SpriteStyle.buildPointLoop sc deps self point sprite statics props st
        = some
          { labels :=
              { state := (SpriteStyle.labelRequests deps tile self.m_name
                  (Transform.init2 sc point.toVec2 point.toVec2)
                  (Vec2.scale sc sprite.size (sc.lit (1 / 2))) ⟨sc.lit 0, sc.lit (-10)⟩
                  (nameProps props) st.labels.state).2,
                requests := st.labels.requests ++ (SpriteStyle.labelRequests deps tile self.m_name
                  (Transform.init2 sc point.toVec2 point.toVec2)
                  (Vec2.scale sc sprite.size (sc.lit (1 / 2))) ⟨sc.lit 0, sc.lit (-10)⟩
                  (nameProps props) st.labels.state).1 },
            vertices := (SpriteStyle.quadsFor sc deps sprite
              ((SpriteStyle.labelRequests deps tile self.m_name
                  (Transform.init2 sc point.toVec2 point.toVec2)
                  (Vec2.scale sc sprite.size (sc.lit (1 / 2))) ⟨sc.lit 0, sc.lit (-10)⟩
                  (nameProps props) st.labels.state).1.filterMap (fun r => r.result))
              (st.vertices, st.indices)).1,
            indices := (SpriteStyle.quadsFor sc deps sprite
              ((SpriteStyle.labelRequests deps tile self.m_name
                  (Transform.init2 sc point.toVec2 point.toVec2)
                  (Vec2.scale sc sprite.size (sc.lit (1 / 2))) ⟨sc.lit 0, sc.lit (-10)⟩
                  (nameProps props) st.labels.state).1.filterMap (fun r => r.result))
              (st.vertices, st.indices)).2 } := by
  intro props
  induction props with
  | nil =>
    intro st
    simp [SpriteStyle.buildPointLoop, nameProps, SpriteStyle.labelRequests,
      SpriteStyle.quadsFor]
  | cons p rest ih =>
    intro st
    by_cases hp : p.1 = "name"
    · have hn : nameProps (p :: rest) = p :: nameProps rest := by
        simp [nameProps, hp]
      rw [hn]
      simp only [SpriteStyle.buildPointLoop, hp, if_true, h, SpriteStyle.labelRequests]
      cases hr : (deps.addSpriteLabel st.labels.state tile self.m_name
          (Transform.init2 sc point.toVec2 point.toVec2)
          (Vec2.scale sc sprite.size (sc.lit (1 / 2))) ⟨sc.lit 0, sc.lit (-10)⟩).1 with
      | none =>
        simp [ih, SpriteStyle.quadsFor]
      | some label =>
        simp [ih, SpriteStyle.quadsFor, Label.getTransform]
    · have hn : nameProps (p :: rest) = nameProps rest := by
        simp [nameProps, hp]
      rw [hn]
      simp only [SpriteStyle.buildPointLoop, hp, if_false]
      exact ih st

theorem SpriteStyle.buildPointLoop_no_name {L T F A S M : Type} (sc : Scalars F)
    (deps : SpriteDeps L T F A S M) (self : SpriteStyle A S) (point : Vec3 F)
    (sprite : SpriteNode F) (statics : SpriteStatics T) :
    ∀ (props : List (String × String)) (st : PointBuild L T F), nameProps props = [] →
      SpriteStyle.buildPointLoop sc deps self point sprite statics props st = some st := by
  intro props
  induction props with
  | nil => intro st _; rfl
  | cons p rest ih =>
    intro st hn
    by_cases hp : p.1 = "name"
    · simp [nameProps, hp] at hn
    · have hn2 : nameProps rest = [] := by simpa [nameProps, hp] using hn
      simp only [SpriteStyle.buildPointLoop, hp, if_false]
      exact ih st hn2

theorem demoSpriteStyle_atlas : demoSpriteStyle.m_spriteAtlas = some demoAtlas := by
  simp [demoSpriteStyle, demoAtlas, SpriteStyle.constructShaderProgram, demoSpriteDeps,
    ratScalars]
  norm_num

theorem SpriteStyle.buildPoint_eq {L T F A S M : Type} (sc : Scalars F)
    (deps : SpriteDeps L T F A S M) (self : SpriteStyle A S) (atlas : A) (point : Vec3 F)
    (stringProps : List (String × String)) (mesh : M) (tile : T)
    (statics : SpriteStatics T) (labels : SpriteLabels L T F)
    (hAtlas : self.m_spriteAtlas = some atlas)
    (hTile : statics.s_processedTile = some tile) :
    SpriteStyle.buildPoint sc deps self point stringProps mesh statics labels
      = some (deps.addVertices mesh
          (SpriteStyle.pointQuads sc deps atlas
            (SpriteStyle.pointRequests sc deps self atlas point tile stringProps labels.state).1).1
          (SpriteStyle.pointQuads sc deps atlas
            (SpriteStyle.pointRequests sc deps self atlas point tile stringProps labels.state).1).2,
          { state :=
              (SpriteStyle.pointRequests sc deps self atlas point tile stringProps labels.state).2,
            requests := labels.requests ++
              (SpriteStyle.pointRequests sc deps self atlas point tile stringProps
                labels.state).1 }) := by
  simp only [SpriteStyle.buildPoint, hAtlas]
  rw [SpriteStyle.buildPointLoop_eq sc deps self point _ statics tile hTile]
  rfl

/-- C7. For a style that has its atlas, while a tile is being processed,
`buildPoint` returns and hands the mesh the quads of exactly the non-null
labels that `addSpriteLabel` returned, one request per string property with
key `"name"`: each quad is built at the label's screen position plus
`(0, -10)`, with half the size of the `"plane"` sprite and its `uvBL` / `uvTR`.
With no `"name"` property (then whatever the processed-tile slot holds), or
when every label creation returns null, the vertex and index lists handed to
the mesh are empty, and the call still returns. -/
theorem SpriteStyle.buildPoint_spec {L T F A S M : Type} (sc : Scalars F)
    (deps : SpriteDeps L T F A S M) (self : SpriteStyle A S) (atlas : A) (point : Vec3 F)
    (stringProps : List (String × String)) (mesh : M) (tile : T)
    (statics : SpriteStatics T) (labels : SpriteLabels L T F)
    (hAtlas : self.m_spriteAtlas = some atlas)
    (hTile : statics.s_processedTile = some tile) :
    SpriteStyle.buildPoint sc deps self point stringProps mesh statics labels
      = some (deps.addVertices mesh
          (SpriteStyle.pointQuads sc deps atlas
            (SpriteStyle.pointRequests sc deps self atlas point tile stringProps labels.state).1).1
          (SpriteStyle.pointQuads sc deps atlas
            (SpriteStyle.pointRequests sc deps self atlas point tile stringProps labels.state).1).2,
          { state :=
              (SpriteStyle.pointRequests sc deps self atlas point tile stringProps labels.state).2,
            requests := labels.requests ++
              (SpriteStyle.pointRequests sc deps self atlas point tile stringProps
                labels.state).1 }) ∧
    (SpriteStyle.pointRequests sc deps self atlas point tile stringProps labels.state).1.length
      = (nameProps stringProps).length ∧
    (nameProps stringProps = [] →
      ∀ (anyStatics : SpriteStatics T),
        SpriteStyle.buildPoint sc deps self point stringProps mesh anyStatics labels
          = some (deps.addVertices mesh [] [], labels)) ∧
    ((∀ r ∈ (SpriteStyle.pointRequests sc deps self atlas point tile stringProps
          labels.state).1, r.result = none) →
      SpriteStyle.buildPoint sc deps self point stringProps mesh statics labels
        = some (deps.addVertices mesh [] [],
          { state :=
              (SpriteStyle.pointRequests sc deps self atlas point tile stringProps
                labels.state).2,
            requests := labels.requests ++
              (SpriteStyle.pointRequests sc deps self atlas point tile stringProps
                labels.state).1 })) := by
  have hEq := SpriteStyle.buildPoint_eq sc deps self atlas point stringProps mesh tile
    statics labels hAtlas hTile
  refine ⟨hEq, SpriteStyle.labelRequests_length deps tile _ _ _ _ _ _, ?_, ?_⟩
  · intro hn anyStatics
    simp only [SpriteStyle.buildPoint, hAtlas]
    rw [SpriteStyle.buildPointLoop_no_name sc deps self point _ anyStatics stringProps _ hn]
  · intro hNull
    rw [hEq]
    simp only [SpriteStyle.pointQuads, SpriteStyle.quadsFor_nil_of_all_null _ hNull,
      SpriteStyle.quadsFor]

/-- C7, at a concrete point: one `"name"` property, one label granted, one
quad; the evaluated mesh shows the position `(3, 4) + (0, -10)`, the size
`(32, 32) / 2` and the corners of the `"plane"` sprite. -/
theorem SpriteStyle.buildPoint_spec_witness :
    demoSpriteStyle.m_spriteAtlas = some demoAtlas ∧
    (SpriteStyle.onBeginBuildTile demoSpriteStyle 7
      (SpriteStatics.init : SpriteStatics Nat)).s_processedTile = some 7 ∧
    SpriteStyle.buildPoint ratScalars demoSpriteDeps demoSpriteStyle ⟨3, 4, 0⟩
        [("kind", "aerodrome"), ("name", "Airport")] ([], [])
        (SpriteStyle.onBeginBuildTile demoSpriteStyle 7 SpriteStatics.init) ⟨0, []⟩
      = some (demoSpriteDeps.addVertices ([], [])
          (SpriteStyle.pointQuads ratScalars demoSpriteDeps demoAtlas
            (SpriteStyle.pointRequests ratScalars demoSpriteDeps demoSpriteStyle demoAtlas
              ⟨3, 4, 0⟩ 7 [("kind", "aerodrome"), ("name", "Airport")] 0).1).1
          (SpriteStyle.pointQuads ratScalars demoSpriteDeps demoAtlas
            (SpriteStyle.pointRequests ratScalars demoSpriteDeps demoSpriteStyle demoAtlas
              ⟨3, 4, 0⟩ 7 [("kind", "aerodrome"), ("name", "Airport")] 0).1).2,
          { state :=
              (SpriteStyle.pointRequests ratScalars demoSpriteDeps demoSpriteStyle demoAtlas
                ⟨3, 4, 0⟩ 7 [("kind", "aerodrome"), ("name", "Airport")] 0).2,
            requests := [] ++
              (SpriteStyle.pointRequests ratScalars demoSpriteDeps demoSpriteStyle demoAtlas
                ⟨3, 4, 0⟩ 7 [("kind", "aerodrome"), ("name", "Airport")] 0).1 }) ∧
    (SpriteStyle.pointQuads ratScalars demoSpriteDeps demoAtlas
        (SpriteStyle.pointRequests ratScalars demoSpriteDeps demoSpriteStyle demoAtlas
          ⟨3, 4, 0⟩ 7 [("kind", "aerodrome"), ("name", "Airport")] 0).1)
      = ([⟨⟨-16, -16⟩, ⟨3, -6⟩, ⟨0, 0⟩, 1 / 2, 157079632679489661923 / 100000000000000000000⟩,
          ⟨⟨16, 16⟩, ⟨3, -6⟩, ⟨32, 32⟩, 1 / 2, 157079632679489661923 / 100000000000000000000⟩],
         [0, 1]) :=
  ⟨demoSpriteStyle_atlas, rfl,
   (SpriteStyle.buildPoint_spec ratScalars demoSpriteDeps demoSpriteStyle demoAtlas ⟨3, 4, 0⟩
      [("kind", "aerodrome"), ("name", "Airport")] ([], []) 7
      (SpriteStyle.onBeginBuildTile demoSpriteStyle 7 SpriteStatics.init) ⟨0, []⟩
      demoSpriteStyle_atlas rfl).1,
   by
     simp [SpriteStyle.pointQuads, SpriteStyle.pointRequests, SpriteStyle.labelRequests,
       SpriteStyle.quadsFor, nameProps, demoSpriteDeps, demoAtlas, ratScalars,
       SpriteStyle.addVertex, M_PI_2, Vec2.add, Vec2.scale, SpriteLabel.new, Transform.init2,
       Vec3.toVec2, Vec2.splat]
     norm_num⟩

/-! ## Theorems: debug text style -/

theorem digitChar_toNat (d : Nat) (h : d < 10) : (Nat.digitChar d).toNat - 48 = d := by
  interval_cases d <;> rfl

theorem digitChar_isDigit (d : Nat) (h : d < 10) : isDigit (Nat.digitChar d) = true := by
  interval_cases d <;> rfl

theorem isDigit_ne (c : Char) (h : isDigit c = true) : c ≠ '/' ∧ c ≠ '-' := by
  constructor
  · rintro rfl
    exact absurd h (by decide)
  · rintro rfl
    exact absurd h (by decide)

theorem toDigitsCore_append (fuel : Nat) : ∀ (n : Nat) (acc : List Char),
    Nat.toDigitsCore 10 fuel n acc = Nat.toDigitsCore 10 fuel n [] ++ acc := by
  induction fuel with
  | zero => intro n acc; simp [Nat.toDigitsCore]
  | succ f ih =>
    intro n acc
    simp only [Nat.toDigitsCore]
    by_cases h : n / 10 = 0
    · simp [h]
    · simp only [h, if_false]
      rw [ih (n / 10) (Nat.digitChar (n % 10) :: acc), ih (n / 10) [Nat.digitChar (n % 10)]]
      simp

theorem toDigitsCore_decode (fuel : Nat) : ∀ n : Nat, n < fuel →
    decodeNat (Nat.toDigitsCore 10 fuel n []) = n := by
  induction fuel with
  | zero => intro n h; omega
  | succ f ih =>
    intro n hn
    simp only [Nat.toDigitsCore]
    by_cases h : n / 10 = 0
    · simp only [h, if_true]
      have h3 : n < 10 := by omega
      simp [decodeNat, Nat.mod_eq_of_lt h3, digitChar_toNat n h3]
    · simp only [h, if_false]
      rw [toDigitsCore_append]
      have h1 : n / 10 < f := by omega
      have h2 := ih (n / 10) h1
      simp only [decodeNat] at h2 ⊢
      rw [List.foldl_append, h2]
      simp [digitChar_toNat (n % 10) (Nat.mod_lt _ (by decide))]
      omega

theorem toDigitsCore_isDigit (fuel : Nat) : ∀ (n : Nat) (c : Char),
    c ∈ Nat.toDigitsCore 10 fuel n [] → isDigit c = true := by
  induction fuel with
  | zero => intro n c h; simp [Nat.toDigitsCore] at h
  | succ f ih =>
    intro n c hc
    simp only [Nat.toDigitsCore] at hc
    by_cases h : n / 10 = 0
    · simp only [h, if_true, List.mem_singleton] at hc
      rw [hc]
      exact digitChar_isDigit _ (Nat.mod_lt _ (by decide))
    · simp only [h, if_false] at hc
      rw [toDigitsCore_append] at hc
      rcases List.mem_append.mp hc with hc | hc
      · exact ih _ _ hc
      · have hc2 : c = Nat.digitChar (n % 10) := by simpa using hc
        rw [hc2]
        exact digitChar_isDigit _ (Nat.mod_lt _ (by decide))

theorem repr_data (n : Nat) : (Nat.repr n).data = Nat.toDigits 10 n := rfl

theorem repr_injective (a b : Nat) (h : Nat.repr a = Nat.repr b) : a = b := by
  have h1 : Nat.toDigits 10 a = Nat.toDigits 10 b := by
    rw [← repr_data, ← repr_data, h]
  have ha := toDigitsCore_decode (a + 1) a (by omega)
  have hb := toDigitsCore_decode (b + 1) b (by omega)
  simp only [Nat.toDigits] at h1
  rw [← ha, ← hb, h1]

theorem repr_isDigit (n : Nat) (c : Char) (h : c ∈ (Nat.repr n).data) : isDigit c = true :=
  toDigitsCore_isDigit (n + 1) n c h

theorem to_string_data (i : Int) :
    (∃ n, i = Int.ofNat n ∧ (to_string i).data = (Nat.repr n).data) ∨
    (∃ n, i = Int.negSucc n ∧ (to_string i).data = '-' :: (Nat.repr (n + 1)).data) := by
  cases i with
  | ofNat n => exact Or.inl ⟨n, rfl, rfl⟩
  | negSucc n => exact Or.inr ⟨n, rfl, by simp [to_string, String.data_append]⟩

theorem to_string_no_slash (i : Int) : '/' ∉ (to_string i).data := by
  intro h
  rcases to_string_data i with ⟨n, -, hd⟩ | ⟨n, -, hd⟩
  · rw [hd] at h
    exact (isDigit_ne _ (repr_isDigit n _ h)).1 rfl
  · rw [hd] at h
    rcases List.mem_cons.mp h with h | h
    · exact absurd h (by decide)
    · exact (isDigit_ne _ (repr_isDigit _ _ h)).1 rfl

theorem to_string_injective (a b : Int) (h : to_string a = to_string b) : a = b := by
  have hd : (to_string a).data = (to_string b).data := by rw [h]
  rcases to_string_data a with ⟨n, rfl, ha⟩ | ⟨n, rfl, ha⟩ <;>
    rcases to_string_data b with ⟨m, rfl, hb⟩ | ⟨m, rfl, hb⟩
  · rw [ha, hb] at hd
    rw [repr_injective n m (String.ext hd)]
  · rw [ha, hb] at hd
    have : '-' ∈ (Nat.repr n).data := by rw [hd]; exact List.mem_cons_self _ _
    exact absurd rfl (isDigit_ne _ (repr_isDigit n _ this)).2
  · rw [ha, hb] at hd
    have : '-' ∈ (Nat.repr m).data := by rw [← hd]; exact List.mem_cons_self _ _
    exact absurd rfl (isDigit_ne _ (repr_isDigit m _ this)).2
  · rw [ha, hb] at hd
    have h2 := repr_injective (n + 1) (m + 1) (String.ext (List.cons_injective hd))
    have : n = m := by omega
    rw [this]

theorem split_at_sep {α : Type} (sep : α) : ∀ (a b r s : List α), sep ∉ a → sep ∉ b →
    a ++ sep :: r = b ++ sep :: s → a = b ∧ r = s := by
  intro a
  induction a with
  | nil =>
    intro b r s _ hb h
    cases b with
    | nil => simpa using h
    | cons y ys =>
      simp only [List.nil_append, List.cons_append, List.cons.injEq] at h
      exact absurd (h.1 ▸ List.mem_cons_self _ _) hb
  | cons x xs ih =>
    intro b r s ha hb h
    cases b with
    | nil =>
      simp only [List.nil_append, List.cons_append, List.cons.injEq] at h
      exact absurd (h.1 ▸ List.mem_cons_self _ _) ha
    | cons y ys =>
      simp only [List.cons_append, List.cons.injEq] at h
      have := ih ys r s (fun m => ha (List.mem_cons_of_mem _ m))
        (fun m => hb (List.mem_cons_of_mem _ m)) h.2
      exact ⟨by rw [h.1, this.1], this.2⟩

theorem DebugTextStyle.tileIDText_injective (a b : TileID)
    (h : DebugTextStyle.tileIDText a = DebugTextStyle.tileIDText b) : a = b := by
  have hd : (DebugTextStyle.tileIDText a).data = (DebugTextStyle.tileIDText b).data := by
    rw [h]
  simp only [DebugTextStyle.tileIDText, String.data_append] at hd
  simp only [List.append_assoc, List.singleton_append] at hd
  obtain ⟨hx, hrest⟩ := split_at_sep '/' _ _ _ _ (to_string_no_slash a.x)
    (to_string_no_slash b.x) hd
  obtain ⟨hy, hz⟩ := split_at_sep '/' _ _ _ _ (to_string_no_slash a.y)
    (to_string_no_slash b.y) hrest
  have ex := to_string_injective _ _ (String.ext hx)
  have ey := to_string_injective _ _ (String.ext hy)
  have ez := to_string_injective _ _ (String.ext hz)
  cases a; cases b
  simp only [TileID.mk.injEq]
  exact ⟨ex, ey, ez⟩

theorem DebugTextStyle.addData_on {W F D M TD : Type} (sc : Scalars F)
    (deps : TextDeps W F D M) (getDebugFlag : DebugFlags → Bool) (self : DebugTextStyle F)
    (data : TD) (tile : MapTile D M) (labels : TextLabels W F)
    (hFlag : getDebugFlag DebugFlags.tile_infos = true) :
    DebugTextStyle.addData sc deps getDebugFlag self data tile labels
      = (tile.addGeometry self.toStyle
        (deps.compileVertexBuffer (deps.onEndBuildTile self
          (deps.addTextLabel tile (DebugTextStyle.beforeLabel sc deps self labels.state).1 self.m_name
          { m_modelPosition1 := ⟨sc.lit 0, sc.lit 0⟩, m_modelPosition2 := ⟨sc.lit 0, sc.lit 0⟩,
            m_screenPosition := ⟨sc.lit 0, sc.lit 0⟩, m_rotation := sc.lit 0 }
          (DebugTextStyle.tileIDText tile.m_id) LabelType.debug
          (DebugTextStyle.beforeLabel sc deps self labels.state).2).1
          (deps.addTextLabel tile (DebugTextStyle.beforeLabel sc deps self labels.state).1 self.m_name
          { m_modelPosition1 := ⟨sc.lit 0, sc.lit 0⟩, m_modelPosition2 := ⟨sc.lit 0, sc.lit 0⟩,
            m_screenPosition := ⟨sc.lit 0, sc.lit 0⟩, m_rotation := sc.lit 0 }
          (DebugTextStyle.tileIDText tile.m_id) LabelType.debug
          (DebugTextStyle.beforeLabel sc deps self labels.state).2).2).1),
       { state := (deps.onEndBuildTile self
          (deps.addTextLabel tile (DebugTextStyle.beforeLabel sc deps self labels.state).1 self.m_name
          { m_modelPosition1 := ⟨sc.lit 0, sc.lit 0⟩, m_modelPosition2 := ⟨sc.lit 0, sc.lit 0⟩,
            m_screenPosition := ⟨sc.lit 0, sc.lit 0⟩, m_rotation := sc.lit 0 }
          (DebugTextStyle.tileIDText tile.m_id) LabelType.debug
          (DebugTextStyle.beforeLabel sc deps self labels.state).2).1
          (deps.addTextLabel tile (DebugTextStyle.beforeLabel sc deps self labels.state).1 self.m_name
          { m_modelPosition1 := ⟨sc.lit 0, sc.lit 0⟩, m_modelPosition2 := ⟨sc.lit 0, sc.lit 0⟩,
            m_screenPosition := ⟨sc.lit 0, sc.lit 0⟩, m_rotation := sc.lit 0 }
          (DebugTextStyle.tileIDText tile.m_id) LabelType.debug
          (DebugTextStyle.beforeLabel sc deps self labels.state).2).2).2,
         requests := labels.requests ++
           [⟨tile.m_id, self.m_name,
             { m_modelPosition1 := ⟨sc.lit 0, sc.lit 0⟩, m_modelPosition2 := ⟨sc.lit 0, sc.lit 0⟩,
               m_screenPosition := ⟨sc.lit 0, sc.lit 0⟩, m_rotation := sc.lit 0 },
             DebugTextStyle.tileIDText tile.m_id, LabelType.debug⟩] }) := by
  simp only [DebugTextStyle.addData, hFlag, if_true, DebugTextStyle.tileIDText, MapTile.getID,
    DebugTextStyle.beforeLabel, Transform.init2, Vec2.splat]

/-- C8 (the body of MapTile::addGeometry is modelled from the spec). `addData`
is gated by the `tile_infos` debug flag. Flag off: the tile and the `Labels`
singleton are returned as they were, so no label is added and the geometry
stays. Flag on: the result is that of exactly one `addTextLabel` call, made
for this tile on the new buffer under this style's name, with both positions
`(0, 0)`, the tile's text and type debug, followed by `onEndBuildTile`,
`compileVertexBuffer` and one `addGeometry` of that mesh for this style; the
request list gains that one call; and (for a tile whose mapping has one entry
per key) the mesh is the only entry under this style's name, other names
keeping their meshes. -/
theorem DebugTextStyle.addData_spec {W F D M TD : Type} (sc : Scalars F)
    (deps : TextDeps W F D M) (getDebugFlag : DebugFlags → Bool) (self : DebugTextStyle F)
    (data : TD) (tile : MapTile D M) (labels : TextLabels W F)
    (h : (umapKeys tile.m_geometry).Nodup) :
    (getDebugFlag DebugFlags.tile_infos = false →
      DebugTextStyle.addData sc deps getDebugFlag self data tile labels = (tile, labels)) ∧
    (getDebugFlag DebugFlags.tile_infos = true →
      DebugTextStyle.addData sc deps getDebugFlag self data tile labels
        = (tile.addGeometry self.toStyle
        (deps.compileVertexBuffer (deps.onEndBuildTile self
          (deps.addTextLabel tile (DebugTextStyle.beforeLabel sc deps self labels.state).1 self.m_name
          { m_modelPosition1 := ⟨sc.lit 0, sc.lit 0⟩, m_modelPosition2 := ⟨sc.lit 0, sc.lit 0⟩,
            m_screenPosition := ⟨sc.lit 0, sc.lit 0⟩, m_rotation := sc.lit 0 }
          (DebugTextStyle.tileIDText tile.m_id) LabelType.debug
          (DebugTextStyle.beforeLabel sc deps self labels.state).2).1
          (deps.addTextLabel tile (DebugTextStyle.beforeLabel sc deps self labels.state).1 self.m_name
          { m_modelPosition1 := ⟨sc.lit 0, sc.lit 0⟩, m_modelPosition2 := ⟨sc.lit 0, sc.lit 0⟩,
            m_screenPosition := ⟨sc.lit 0, sc.lit 0⟩, m_rotation := sc.lit 0 }
          (DebugTextStyle.tileIDText tile.m_id) LabelType.debug
          (DebugTextStyle.beforeLabel sc deps self labels.state).2).2).1),
       { state := (deps.onEndBuildTile self
          (deps.addTextLabel tile (DebugTextStyle.beforeLabel sc deps self labels.state).1 self.m_name
          { m_modelPosition1 := ⟨sc.lit 0, sc.lit 0⟩, m_modelPosition2 := ⟨sc.lit 0, sc.lit 0⟩,
            m_screenPosition := ⟨sc.lit 0, sc.lit 0⟩, m_rotation := sc.lit 0 }
          (DebugTextStyle.tileIDText tile.m_id) LabelType.debug
          (DebugTextStyle.beforeLabel sc deps self labels.state).2).1
          (deps.addTextLabel tile (DebugTextStyle.beforeLabel sc deps self labels.state).1 self.m_name
          { m_modelPosition1 := ⟨sc.lit 0, sc.lit 0⟩, m_modelPosition2 := ⟨sc.lit 0, sc.lit 0⟩,
            m_screenPosition := ⟨sc.lit 0, sc.lit 0⟩, m_rotation := sc.lit 0 }
          (DebugTextStyle.tileIDText tile.m_id) LabelType.debug
          (DebugTextStyle.beforeLabel sc deps self labels.state).2).2).2,
         requests := labels.requests ++
           [⟨tile.m_id, self.m_name,
             { m_modelPosition1 := ⟨sc.lit 0, sc.lit 0⟩, m_modelPosition2 := ⟨sc.lit 0, sc.lit 0⟩,
               m_screenPosition := ⟨sc.lit 0, sc.lit 0⟩, m_rotation := sc.lit 0 },
             DebugTextStyle.tileIDText tile.m_id, LabelType.debug⟩] }) ∧
      (DebugTextStyle.addData sc deps getDebugFlag self data tile labels).2.requests
        = labels.requests ++
            [⟨tile.m_id, self.m_name,
              { m_modelPosition1 := ⟨sc.lit 0, sc.lit 0⟩,
                m_modelPosition2 := ⟨sc.lit 0, sc.lit 0⟩,
                m_screenPosition := ⟨sc.lit 0, sc.lit 0⟩, m_rotation := sc.lit 0 },
              DebugTextStyle.tileIDText tile.m_id, LabelType.debug⟩] ∧
      (∃ mesh : M,
        (DebugTextStyle.addData sc deps getDebugFlag self data tile labels).1
          = tile.addGeometry self.toStyle mesh ∧
        umapFind (DebugTextStyle.addData sc deps getDebugFlag self data tile labels).1.m_geometry
          self.m_name = some mesh ∧
        (DebugTextStyle.addData sc deps getDebugFlag self data tile labels).1.m_geometry.filter
          (fun e => e.1 = self.m_name) = [(self.m_name, mesh)]) ∧
      (∀ other : String, other ≠ self.m_name →
        umapFind (DebugTextStyle.addData sc deps getDebugFlag self data tile labels).1.m_geometry
          other = umapFind tile.m_geometry other) ∧
      (umapKeys
        (DebugTextStyle.addData sc deps getDebugFlag self data tile labels).1.m_geometry).Nodup ∧
      (DebugTextStyle.addData sc deps getDebugFlag self data tile labels).1.m_id = tile.m_id) := by
  constructor
  · intro hOff
    simp [DebugTextStyle.addData, hOff]
  · intro hOn
    have hEq := DebugTextStyle.addData_on sc deps getDebugFlag self data tile labels hOn
    refine ⟨hEq, ?_⟩
    rw [hEq]
    refine ⟨rfl, ⟨_, rfl, umapFind_assign_same _ _ _, umapAssign_filter_key _ _ _ h⟩, ?_,
      umapKeys_assign_nodup _ _ _ h, rfl⟩
    intro other ho
    exact umapFind_assign_other _ _ _ _ ho

/-- C8, at a concrete tile: with the flag off nothing changes; with the flag on
the `Labels` state shows the one label created with the tile's text, one debug
label request is added under `"debug"`, and the mesh, which holds that label,
is registered next to the mesh of the other style. -/
theorem DebugTextStyle.addData_spec_witness :
    (umapKeys demoTile.m_geometry).Nodup ∧
    DebugTextStyle.addData ratScalars demoTextDeps (fun _ => false) demoDebugStyle ()
        demoTile ⟨[], []⟩ = (demoTile, ⟨[], []⟩) ∧
    (DebugTextStyle.addData ratScalars demoTextDeps (fun _ => true) demoDebugStyle ()
        demoTile ⟨[], []⟩).2.requests
      = [] ++ [⟨⟨19293, 24641, 16⟩, "debug", ⟨⟨0, 0⟩, ⟨0, 0⟩, ⟨0, 0⟩, 0⟩,
          DebugTextStyle.tileIDText ⟨19293, 24641, 16⟩, LabelType.debug⟩] ∧
    (DebugTextStyle.addData ratScalars demoTextDeps (fun _ => true) demoDebugStyle ()
        demoTile ⟨[], []⟩).2.state
      = ["newMesh", "setFont FiraSans", "setSignedDistanceField",
         "addTextLabel 19293/24641/16 debug"] ∧
    (DebugTextStyle.addData ratScalars demoTextDeps (fun _ => true) demoDebugStyle ()
        demoTile ⟨[], []⟩).1.m_geometry
      = [("polygon", ["p"]), ("debug", ["begin", "19293/24641/16", "end", "compiled"])] :=
  ⟨by decide,
   (DebugTextStyle.addData_spec ratScalars demoTextDeps (fun _ => false) demoDebugStyle ()
      demoTile ⟨[], []⟩ (by decide)).1 rfl,
   ((DebugTextStyle.addData_spec ratScalars demoTextDeps (fun _ => true) demoDebugStyle ()
      demoTile ⟨[], []⟩ (by decide)).2 rfl).2.1,
   by decide, by decide⟩

/-- C9. With the flag on, `addData` creates the label of a tile by the one
`addTextLabel` call whose text argument is the decimal form of the tile's `x`,
then `"/"`, the decimal form of `y`, `"/"`, the decimal form of `z`; the same
holds for any other tile, style, data and `Labels` state, and for two tiles
with different identifiers the two texts differ. -/
theorem DebugTextStyle.addData_text_spec {W F D M TD : Type} (sc : Scalars F)
    (deps : TextDeps W F D M) (getDebugFlag : DebugFlags → Bool) (self : DebugTextStyle F)
    (data : TD) (tile : MapTile D M) (labels : TextLabels W F)
    (hFlag : getDebugFlag DebugFlags.tile_infos = true) :
    DebugTextStyle.addData sc deps getDebugFlag self data tile labels
      = (tile.addGeometry self.toStyle
        (deps.compileVertexBuffer (deps.onEndBuildTile self
          (deps.addTextLabel tile (DebugTextStyle.beforeLabel sc deps self labels.state).1 self.m_name
          { m_modelPosition1 := ⟨sc.lit 0, sc.lit 0⟩, m_modelPosition2 := ⟨sc.lit 0, sc.lit 0⟩,
            m_screenPosition := ⟨sc.lit 0, sc.lit 0⟩, m_rotation := sc.lit 0 }
          (to_string tile.m_id.x ++ "/" ++ to_string tile.m_id.y ++ "/" ++ to_string tile.m_id.z) LabelType.debug
          (DebugTextStyle.beforeLabel sc deps self labels.state).2).1
          (deps.addTextLabel tile (DebugTextStyle.beforeLabel sc deps self labels.state).1 self.m_name
          { m_modelPosition1 := ⟨sc.lit 0, sc.lit 0⟩, m_modelPosition2 := ⟨sc.lit 0, sc.lit 0⟩,
            m_screenPosition := ⟨sc.lit 0, sc.lit 0⟩, m_rotation := sc.lit 0 }
          (to_string tile.m_id.x ++ "/" ++ to_string tile.m_id.y ++ "/" ++ to_string tile.m_id.z) LabelType.debug
          (DebugTextStyle.beforeLabel sc deps self labels.state).2).2).1),
       { state := (deps.onEndBuildTile self
          (deps.addTextLabel tile (DebugTextStyle.beforeLabel sc deps self labels.state).1 self.m_name
          { m_modelPosition1 := ⟨sc.lit 0, sc.lit 0⟩, m_modelPosition2 := ⟨sc.lit 0, sc.lit 0⟩,
            m_screenPosition := ⟨sc.lit 0, sc.lit 0⟩, m_rotation := sc.lit 0 }
          (to_string tile.m_id.x ++ "/" ++ to_string tile.m_id.y ++ "/" ++ to_string tile.m_id.z) LabelType.debug
          (DebugTextStyle.beforeLabel sc deps self labels.state).2).1
          (deps.addTextLabel tile (DebugTextStyle.beforeLabel sc deps self labels.state).1 self.m_name
          { m_modelPosition1 := ⟨sc.lit 0, sc.lit 0⟩, m_modelPosition2 := ⟨sc.lit 0, sc.lit 0⟩,
            m_screenPosition := ⟨sc.lit 0, sc.lit 0⟩, m_rotation := sc.lit 0 }
          (to_string tile.m_id.x ++ "/" ++ to_string tile.m_id.y ++ "/" ++ to_string tile.m_id.z) LabelType.debug
          (DebugTextStyle.beforeLabel sc deps self labels.state).2).2).2,
         requests := labels.requests ++
           [⟨tile.m_id, self.m_name,
             { m_modelPosition1 := ⟨sc.lit 0, sc.lit 0⟩, m_modelPosition2 := ⟨sc.lit 0, sc.lit 0⟩,
               m_screenPosition := ⟨sc.lit 0, sc.lit 0⟩, m_rotation := sc.lit 0 },
             to_string tile.m_id.x ++ "/" ++ to_string tile.m_id.y ++ "/" ++ to_string tile.m_id.z, LabelType.debug⟩] }) ∧
    (∀ (self2 : DebugTextStyle F) (data2 : TD) (tile2 : MapTile D M) (labels2 : TextLabels W F),
      DebugTextStyle.addData sc deps getDebugFlag self2 data2 tile2 labels2
        = (tile2.addGeometry self2.toStyle
        (deps.compileVertexBuffer (deps.onEndBuildTile self2
          (deps.addTextLabel tile2 (DebugTextStyle.beforeLabel sc deps self2 labels2.state).1 self2.m_name
          { m_modelPosition1 := ⟨sc.lit 0, sc.lit 0⟩, m_modelPosition2 := ⟨sc.lit 0, sc.lit 0⟩,
            m_screenPosition := ⟨sc.lit 0, sc.lit 0⟩, m_rotation := sc.lit 0 }
          (to_string tile2.m_id.x ++ "/" ++ to_string tile2.m_id.y ++ "/" ++ to_string tile2.m_id.z) LabelType.debug
          (DebugTextStyle.beforeLabel sc deps self2 labels2.state).2).1
          (deps.addTextLabel tile2 (DebugTextStyle.beforeLabel sc deps self2 labels2.state).1 self2.m_name
          { m_modelPosition1 := ⟨sc.lit 0, sc.lit 0⟩, m_modelPosition2 := ⟨sc.lit 0, sc.lit 0⟩,
            m_screenPosition := ⟨sc.lit 0, sc.lit 0⟩, m_rotation := sc.lit 0 }
          (to_string tile2.m_id.x ++ "/" ++ to_string tile2.m_id.y ++ "/" ++ to_string tile2.m_id.z) LabelType.debug
          (DebugTextStyle.beforeLabel sc deps self2 labels2.state).2).2).1),
       { state := (deps.onEndBuildTile self2
          (deps.addTextLabel tile2 (DebugTextStyle.beforeLabel sc deps self2 labels2.state).1 self2.m_name
          { m_modelPosition1 := ⟨sc.lit 0, sc.lit 0⟩, m_modelPosition2 := ⟨sc.lit 0, sc.lit 0⟩,
            m_screenPosition := ⟨sc.lit 0, sc.lit 0⟩, m_rotation := sc.lit 0 }
          (to_string tile2.m_id.x ++ "/" ++ to_string tile2.m_id.y ++ "/" ++ to_string tile2.m_id.z) LabelType.debug
          (DebugTextStyle.beforeLabel sc deps self2 labels2.state).2).1
          (deps.addTextLabel tile2 (DebugTextStyle.beforeLabel sc deps self2 labels2.state).1 self2.m_name
          { m_modelPosition1 := ⟨sc.lit 0, sc.lit 0⟩, m_modelPosition2 := ⟨sc.lit 0, sc.lit 0⟩,
            m_screenPosition := ⟨sc.lit 0, sc.lit 0⟩, m_rotation := sc.lit 0 }
          (to_string tile2.m_id.x ++ "/" ++ to_string tile2.m_id.y ++ "/" ++ to_string tile2.m_id.z) LabelType.debug
          (DebugTextStyle.beforeLabel sc deps self2 labels2.state).2).2).2,
         requests := labels2.requests ++
           [⟨tile2.m_id, self2.m_name,
             { m_modelPosition1 := ⟨sc.lit 0, sc.lit 0⟩, m_modelPosition2 := ⟨sc.lit 0, sc.lit 0⟩,
               m_screenPosition := ⟨sc.lit 0, sc.lit 0⟩, m_rotation := sc.lit 0 },
             to_string tile2.m_id.x ++ "/" ++ to_string tile2.m_id.y ++ "/" ++ to_string tile2.m_id.z, LabelType.debug⟩] }) ∧
      (tile.m_id ≠ tile2.m_id →
        to_string tile.m_id.x ++ "/" ++ to_string tile.m_id.y ++ "/" ++ to_string tile.m_id.z
          ≠ to_string tile2.m_id.x ++ "/" ++ to_string tile2.m_id.y ++ "/" ++
              to_string tile2.m_id.z)) ∧
    (∀ a b : TileID, a ≠ b →
      to_string a.x ++ "/" ++ to_string a.y ++ "/" ++ to_string a.z
        ≠ to_string b.x ++ "/" ++ to_string b.y ++ "/" ++ to_string b.z) := by
  have hInj : ∀ a b : TileID, a ≠ b →
      to_string a.x ++ "/" ++ to_string a.y ++ "/" ++ to_string a.z
        ≠ to_string b.x ++ "/" ++ to_string b.y ++ "/" ++ to_string b.z := by
    intro a b hne hEq
    exact hne (DebugTextStyle.tileIDText_injective a b hEq)
  refine ⟨DebugTextStyle.addData_on sc deps getDebugFlag self data tile labels hFlag, ?_, hInj⟩
  intro self2 data2 tile2 labels2
  exact ⟨DebugTextStyle.addData_on sc deps getDebugFlag self2 data2 tile2 labels2 hFlag,
    hInj tile.m_id tile2.m_id⟩

/-- C9, at a concrete tile: the label of tile `(19293, 24641, 16)` is created
with the text `"19293/24641/16"`, which is also what the mesh receives. -/
theorem DebugTextStyle.addData_text_spec_witness :
    (fun (_ : DebugFlags) => true) DebugFlags.tile_infos = true ∧
    DebugTextStyle.addData ratScalars demoTextDeps (fun _ => true) demoDebugStyle ()
        demoTile ⟨[], []⟩
      = ({ demoTile with
            m_geometry :=
              [("polygon", ["p"]),
               ("debug", ["begin", "19293/24641/16", "end", "compiled"])] },
         { state := ["newMesh", "setFont FiraSans", "setSignedDistanceField",
             "addTextLabel 19293/24641/16 debug"],
           requests := [⟨⟨19293, 24641, 16⟩, "debug", ⟨⟨0, 0⟩, ⟨0, 0⟩, ⟨0, 0⟩, 0⟩,
             "19293/24641/16", LabelType.debug⟩] }) ∧
    to_string (-3) ++ "/" ++ to_string 0 ++ "/" ++ to_string 12 = "-3/0/12" :=
  ⟨rfl,
   (DebugTextStyle.addData_text_spec ratScalars demoTextDeps (fun _ => true) demoDebugStyle ()
      demoTile ⟨[], []⟩ rfl).1,
   by decide⟩

end Tangram
